import Mathlib

/-!
# Verification of the elevenlabs-agent-connector gateway

A shallow embedding, in Lean 4, of the parts of the repository that the
specification's claims are about:

* the audio codec pipeline of the Twilio dialer plugin
  (`app/services/dialers/twilio/audio_converter.py`), including faithful
  models of the CPython `audioop` primitives `ulaw2lin`, `lin2ulaw` and
  `ratecv` (validated sample-for-sample, including carried state, against
  CPython 3.11's `audioop`), and of `base64` encode/decode on well-formed
  input;
* the Twilio wire-message parser and builder
  (`connection_handler.py`, `message_builder.py`);
* the call-context store (`app/services/dialers/context.py`);
* the dialer and agent plugin registries;
* the ElevenLabs agent message handler and stream receive loop
  (`app/services/agents/elevenlabs/{message_handler,stream}.py`);
* the media-stream bridge, the inbound-call handler and the downstream
  pump (`app/routers/dialer.py`), modelled as pure functions from the
  sequence of incoming messages/events to the trace of effects performed.

Python dynamic values (JSON payloads, dict fields) are modelled by `PyVal`;
`dict.get` becomes association-list lookup, Python truthiness is made
explicit where the source relies on it, exceptions become `Option`
(`none` = the operation raised), and the `finally:` cleanup block of the
bridge is appended to whatever action trace the `try:` body produced.
-/

/-- Python values as they appear in the decoded JSON payloads and context
dicts of this program: strings, booleans, integers, byte strings, lists
and string-keyed dicts. -/
inductive PyVal where
  | pyNone : PyVal
  | pyBool (b : Bool) : PyVal
  | pyInt (n : Int) : PyVal
  | pyStr (s : String) : PyVal
  | pyBytes (bs : List Nat) : PyVal
  | pyList (xs : List PyVal) : PyVal
  | pyDict (fields : List (String × PyVal)) : PyVal
deriving Repr

namespace PyVal

/-- `d.get(k)` on a Python dict: the value of the first matching key. -/
def dictGet (d : PyVal) (k : String) : Option PyVal :=
  match d with
  | .pyDict fields => go fields
  | _ => none
where
  go : List (String × PyVal) → Option PyVal
    | [] => none
    | (k2, v) :: rest => if k2 = k then some v else go rest

/-- `d.get(k, default)` on a Python dict. -/
def dictGetD (d : PyVal) (k : String) (default : PyVal) : PyVal :=
  (d.dictGet k).getD default

end PyVal

/-! ## Bytes and 16-bit little-endian samples

PCM byte strings are modelled as `List Nat` (each element `< 256`);
samples are `Int` in two's-complement 16-bit range. -/

/-- One little-endian signed 16-bit sample from two bytes. -/
def decode16 (lo hi : Nat) : Int :=
  let u := lo % 256 + 256 * (hi % 256)
  if u < 32768 then (u : Int) else (u : Int) - 65536

/-- A signed 16-bit sample to two little-endian bytes (two's complement). -/
def encode16 (s : Int) : List Nat :=
  let u := (s % 65536).toNat
  [u % 256, u / 256]

/-- A byte string as a list of 16-bit samples; `none` when the length is
odd (audioop raises "not a whole number of frames"). -/
def bytesToSamples : List Nat → Option (List Int)
  | [] => some []
  | [_] => none
  | lo :: hi :: rest => (bytesToSamples rest).map (decode16 lo hi :: ·)

/-- A list of 16-bit samples back to little-endian bytes. -/
def samplesToBytes (samples : List Int) : List Nat :=
  (samples.map encode16).flatten

/-! ## CPython `audioop` primitives (width 2, mono), as used by the Twilio
audio converter. Algorithms transcribed from CPython's `Modules/audioop.c`
and validated against CPython 3.11's `audioop` on random inputs, including
chained `ratecv` state. -/

/-- `st_ulaw2linear16`: decode one G.711 mu-law byte to a signed 16-bit
linear sample. -/
def st_ulaw2linear16 (u : Nat) : Int :=
  let uc := 255 - u % 256
  let t0 := ((uc &&& 0xF) <<< 3) + 0x84
  let t := t0 <<< ((uc &&& 0x70) >>> 4)
  if uc &&& 0x80 ≠ 0 then (0x84 : Int) - (t : Int) else (t : Int) - 0x84

/-- `audioop.ulaw2lin(fragment, 2)`: each mu-law byte becomes one 16-bit
little-endian sample. -/
def ulaw2lin (fragment : List Nat) : List Nat :=
  samplesToBytes (fragment.map st_ulaw2linear16)

/-- Segment-end table used by the mu-law encoder (`seg_uend`). -/
def seg_uend : List Int := [0x3F, 0x7F, 0xFF, 0x1FF, 0x3FF, 0x7FF, 0xFFF, 0x1FFF]

/-- `search`: index of the first table entry `≥ val`, or the table size. -/
def searchSeg (val : Int) : List Int → Nat
  | [] => 0
  | t :: ts => if val ≤ t then 0 else searchSeg val ts + 1

/-- `st_14linear2ulaw`: encode one 14-bit linear sample as a mu-law byte. -/
def st_14linear2ulaw (pcm_val : Int) : Nat :=
  let pm : Int × Nat := if pcm_val < 0 then (-pcm_val, 0x7F) else (pcm_val, 0xFF)
  let p0 := pm.1
  let mask := pm.2
  let p1 := if p0 > 8159 then 8159 else p0
  let p := p1 + 33
  let seg := searchSeg p seg_uend
  if seg ≥ 8 then 0x7F ^^^ mask
  else (((seg <<< 4) ||| ((p.toNat >>> (seg + 1)) &&& 0xF)) ^^^ mask)

/-- `audioop.lin2ulaw(fragment, 2)`: each 16-bit sample `s` is encoded from
its top 14 bits (`GETSAMPLE32 >> 18`, an arithmetic shift, i.e. `⌊s/4⌋`);
`none` when the byte length is odd. -/
def lin2ulaw (fragment : List Nat) : Option (List Nat) :=
  (bytesToSamples fragment).map fun samples =>
    samples.map fun s => st_14linear2ulaw (Int.fdiv s 4)

/-- The state threaded through `audioop.ratecv`: the fractional phase `d`
and the previous/current input samples, kept scaled by `2^16` exactly as
CPython stores them in the returned state tuple. -/
structure RatecvState where
  d : Int
  prev_i : Int
  cur_i : Int
deriving DecidableEq, Repr

/-- One interpolated output of `ratecv`:
`(int)((prev*d + cur*(outrate-d)) / outrate)`, C division truncating
toward zero (exact for the 1:2 and 2:1 ratios this program uses). -/
def interpSample (prev cur outrate d : Int) : Int :=
  Int.tdiv (prev * d + cur * (outrate - d)) outrate

/-- The inner emit loop of `ratecv`: emit while `d ≥ 0`, decrementing `d`
by `inrate` each time. `fuel` is an upper bound on the iteration count;
callers pass `d.toNat + 1`, which suffices since `inrate ≥ 1`. -/
def ratecvEmit (prev cur inrate outrate : Int) : Nat → Int → List Int × Int
  | 0, d => ([], d)
  | fuel + 1, d =>
    if d < 0 then ([], d)
    else
      let s := interpSample prev cur outrate d
      let rec2 := ratecvEmit prev cur inrate outrate fuel (d - inrate)
      (s :: rec2.1, rec2.2)

/-- The main loop of `ratecv` over scaled input samples: read one frame
(`prev := cur; cur := x; d += outrate`), then emit while `d ≥ 0`; stop
when the input is exhausted while `d < 0`. -/
def ratecvLoop (inrate outrate : Int) : List Int → Int → Int → Int → List Int × RatecvState
  | [], d, prev, cur => ([], ⟨d, prev, cur⟩)
  | x :: xs, d, _prev, cur =>
    let prev2 := cur
    let d2 := d + outrate
    if d2 < 0 then ratecvLoop inrate outrate xs d2 prev2 x
    else
      let em := ratecvEmit prev2 x inrate outrate (d2.toNat + 1) d2
      let rec2 := ratecvLoop inrate outrate xs em.2 prev2 x
      (em.1 ++ rec2.1, rec2.2)

/-- `audioop.ratecv(fragment, 2, 1, inrate, outrate, state)`. Rates are
reduced by their gcd; `state = none` starts from `d = -outrate` and zero
samples; input samples are scaled by `2^16` on read and the emitted
samples arithmetically shifted back down on write. Returns `none` when
the fragment length is odd or a rate is zero (audioop raises there).
Only the width-2 mono configuration used by this program is modelled. -/
def ratecv (fragment : List Nat) (width nchannels inrate0 outrate0 : Nat)
    (state : Option RatecvState) : Option (List Nat × RatecvState) :=
  if width = 2 ∧ nchannels = 1 ∧ 0 < inrate0 ∧ 0 < outrate0 then
    match bytesToSamples fragment with
    | none => none
    | some samples =>
      let g := Nat.gcd inrate0 outrate0
      let inrate : Int := (inrate0 / g : Nat)
      let outrate : Int := (outrate0 / g : Nat)
      let init : RatecvState := (state.getD ⟨-outrate, 0, 0⟩)
      let res := ratecvLoop inrate outrate (samples.map (· * 65536))
        init.d init.prev_i init.cur_i
      some (samplesToBytes (res.1.map fun s => Int.fdiv s 65536), res.2)
  else none

/-! ## Base64 (standard alphabet), as used via Python's `base64` module.
Well-formed padded input is decoded exactly as `base64.b64decode`;
malformed input yields `none` (the Python call raises). -/

/-- Value of one base64 alphabet character. -/
def b64Val (c : Char) : Option Nat :=
  let n := c.toNat
  if 65 ≤ n ∧ n ≤ 90 then some (n - 65)
  else if 97 ≤ n ∧ n ≤ 122 then some (n - 97 + 26)
  else if 48 ≤ n ∧ n ≤ 57 then some (n - 48 + 52)
  else if c = '+' then some 62
  else if c = '/' then some 63
  else none

/-- Character for one 6-bit value. -/
def b64Char (n : Nat) : Char :=
  if n < 26 then Char.ofNat (65 + n)
  else if n < 52 then Char.ofNat (97 + (n - 26))
  else if n < 62 then Char.ofNat (48 + (n - 52))
  else if n = 62 then '+' else '/'

/-- Base64-encode a byte string, three bytes to four characters, with
`=` padding. -/
def b64encodeChars : List Nat → List Char
  | [] => []
  | [a] => [b64Char (a / 4), b64Char (a % 4 * 16), '=', '=']
  | [a, b] => [b64Char (a / 4), b64Char (a % 4 * 16 + b / 16), b64Char (b % 16 * 4), '=']
  | a :: b :: c :: rest =>
    b64Char (a / 4) :: b64Char (a % 4 * 16 + b / 16) ::
      b64Char (b % 16 * 4 + c / 64) :: b64Char (c % 64) :: b64encodeChars rest

/-- `base64.b64encode(bs).decode()`. -/
def b64encode (bs : List Nat) : String := String.mk (b64encodeChars bs)

/-- Decode groups of four base64 characters; `=` padding only at the end.
`none` on any malformed group. -/
def b64decodeChars : List Char → Option (List Nat)
  | [] => some []
  | a :: b :: c :: d :: rest =>
    match b64Val a, b64Val b with
    | some va, some vb =>
      if c = '=' then
        if d = '=' ∧ rest = [] then some [va * 4 + vb / 16] else none
      else
        match b64Val c with
        | some vc =>
          if d = '=' then
            if rest = [] then some [va * 4 + vb / 16, vb % 16 * 16 + vc / 4] else none
          else
            match b64Val d with
            | some vd =>
              (b64decodeChars rest).map fun tail =>
                (va * 4 + vb / 16) :: (vb % 16 * 16 + vc / 4) :: (vc % 4 * 64 + vd) :: tail
            | none => none
        | none => none
    | _, _ => none
  | _ => none

/-- `base64.b64decode(s)` on well-formed padded input; `none` where the
Python call raises `binascii.Error`. -/
def b64decode (s : String) : Option (List Nat) := b64decodeChars s.toList

/-! ## Call-context store (`app/services/dialers/context.py`)

The module-level dict `_call_contexts` is modelled as a function from
call id to optional context, threaded explicitly through the handlers. -/

/-- The context stored per call: `{agent_id, dynamic_variables}` as built
by the setup handlers and by the bridge's custom-parameter fallback. -/
structure CallContext where
  agent_id : String
  dynamic_variables : List (String × PyVal)
deriving Repr

/-- The `_call_contexts` mapping. -/
def CtxStore : Type := String → Option CallContext

/-- `store_call_context(call_id, context)`: `_call_contexts[call_id] = context`. -/
def store_call_context (store : CtxStore) (call_id : String) (context : CallContext) : CtxStore :=
  fun k => if k = call_id then some context else store k

/-- `get_call_context(call_id)`: `_call_contexts.get(call_id)`. -/
def get_call_context (store : CtxStore) (call_id : String) : Option CallContext :=
  store call_id

/-- `cleanup_call_context(call_id)`: delete the entry if present. -/
def cleanup_call_context (store : CtxStore) (call_id : String) : CtxStore :=
  fun k => if k = call_id then none else store k

/-- The empty store. -/
def emptyStore : CtxStore := fun _ => none

/-! ## Plugin registries (`services/dialers/registry.py`,
`services/agents/registry.py`)

Each registry is a Python class-level dict from lowercased name to a
plugin class; the class objects are an abstract type `α` here. The
`issubclass` guard in `register` always passes for the classes this
program registers and is not modelled. -/

/-- `name.lower()` (ASCII, which covers every name this program uses). -/
def lowerName (s : String) : String := String.mk (s.toList.map Char.toLower)

/-- Python dict assignment `d[k] = v`: overwrite in place or append. -/
def dictSet {α : Type} (l : List (String × α)) (k : String) (v : α) : List (String × α) :=
  match l with
  | [] => [(k, v)]
  | (k2, v2) :: rest => if k2 = k then (k, v) :: rest else (k2, v2) :: dictSet rest k v

/-- Python dict lookup `d.get(k)` / `k in d`. -/
def dictLookup {α : Type} (l : List (String × α)) (k : String) : Option α :=
  match l with
  | [] => none
  | (k2, v) :: rest => if k2 = k then some v else dictLookup rest k

namespace DialerRegistry

/-- `DialerRegistry.register(name, dialer_class)`. -/
def register {α : Type} (reg : List (String × α)) (name : String) (dialer_class : α) :
    List (String × α) :=
  dictSet reg (lowerName name) dialer_class

/-- `DialerRegistry.list_dialers()`: the keys. -/
def list_dialers {α : Type} (reg : List (String × α)) : List String :=
  reg.map (·.1)

/-- `DialerRegistry.get(name)`: case-insensitive lookup; `.error` models the
`ValueError` raised with the list of available dialers. -/
def get {α : Type} (reg : List (String × α)) (name : String) : Except String α :=
  let name_lower := lowerName name
  match dictLookup reg name_lower with
  | some c => .ok c
  | none =>
    let available := String.intercalate ", " (list_dialers reg)
    .error ("Dialer '" ++ name ++ "' not registered. Available dialers: " ++ available)

end DialerRegistry

namespace AgentRegistry

/-- `AgentRegistry.register(name, service_class)`. -/
def register {α : Type} (reg : List (String × α)) (name : String) (service_class : α) :
    List (String × α) :=
  dictSet reg (lowerName name) service_class

/-- `AgentRegistry.list_agents()`. -/
def list_agents {α : Type} (reg : List (String × α)) : List String :=
  reg.map (·.1)

/-- `AgentRegistry.get(name)`. -/
def get {α : Type} (reg : List (String × α)) (name : String) : Except String α :=
  let name_lower := lowerName name
  match dictLookup reg name_lower with
  | some c => .ok c
  | none =>
    let available := String.intercalate ", " (list_agents reg)
    .error ("Agent '" ++ name ++ "' not registered. Available agents: " ++ available)

end AgentRegistry

/-! ## Twilio wire messages and the connection handler
(`services/dialers/twilio/connection_handler.py`)

Incoming WebSocket frames after `json.loads`, restricted to the fields
the handler and the router read; fields the router never touches
(`accountSid`, `tracks`, `mediaFormat`, timestamps) are omitted. -/

/-- The `start` sub-object of a Twilio `start` frame. -/
structure TwilioStart where
  callSid : Option String := none
  streamSid : Option String := none
  customParameters : List (String × String) := []
deriving Repr, DecidableEq

/-- The `media` sub-object of a Twilio `media` frame. -/
structure TwilioMedia where
  payload : Option String := none
deriving Repr, DecidableEq

/-- The `stop` sub-object of a Twilio `stop` frame. -/
structure TwilioStop where
  callSid : Option String := none
deriving Repr, DecidableEq

/-- The `mark` sub-object of a Twilio `mark` frame. -/
structure TwilioMark where
  name : Option String := none
deriving Repr, DecidableEq

/-- A decoded Twilio WebSocket message. -/
structure TwilioWireMessage where
  event : Option String := none
  start : Option TwilioStart := none
  media : Option TwilioMedia := none
  stop : Option TwilioStop := none
  mark : Option TwilioMark := none
  streamSid : Option String := none
deriving Repr, DecidableEq

/-- The standardized dict returned by
`TwilioConnectionHandler.handle_incoming_message`, restricted to the keys
the router reads (`parsed.get(...)`; absent keys are the defaults). -/
structure ParsedMessage where
  event_type : String
  call_id : Option String := none
  stream_id : Option String := none
  custom_parameters : List (String × String) := []
  audio_payload : Option String := none
  mark_name : Option String := none
deriving Repr, DecidableEq

namespace TwilioConnectionHandler

/-- `_handle_start`. -/
def handle_start (message : TwilioWireMessage) : ParsedMessage :=
  let start_data := message.start.getD {}
  { event_type := "start"
    call_id := start_data.callSid
    stream_id := start_data.streamSid
    custom_parameters := start_data.customParameters }

/-- `_handle_media`. -/
def handle_media (message : TwilioWireMessage) : ParsedMessage :=
  let media_data := message.media.getD {}
  { event_type := "media"
    stream_id := message.streamSid
    audio_payload := media_data.payload }

/-- `_handle_stop`. -/
def handle_stop (message : TwilioWireMessage) : ParsedMessage :=
  let stop_data := message.stop.getD {}
  { event_type := "stop"
    call_id := stop_data.callSid
    stream_id := message.streamSid }

/-- `_handle_mark`. -/
def handle_mark (message : TwilioWireMessage) : ParsedMessage :=
  let mark_data := message.mark.getD {}
  { event_type := "mark"
    stream_id := message.streamSid
    mark_name := mark_data.name }

/-- `handle_incoming_message`: dispatch on `message.get("event")`. -/
def handle_incoming_message (message : TwilioWireMessage) : ParsedMessage :=
  if message.event = some "start" then handle_start message
  else if message.event = some "media" then handle_media message
  else if message.event = some "stop" then handle_stop message
  else if message.event = some "mark" then handle_mark message
  else { event_type := "unknown" }

end TwilioConnectionHandler

/-! ## Twilio audio converter
(`services/dialers/twilio/audio_converter.py`)

Both directions call `audioop.ratecv` with `None` as the state argument
and discard the returned state (`pcm_16khz, _ = audioop.ratecv(..., None)`).
`none` results model the exceptions the Python code would propagate. -/

namespace TwilioAudioConverter

/-- `dialer_to_pcm(audio_data)`: base64 mu-law 8 kHz in, PCM-16 16 kHz out. -/
def dialer_to_pcm (audio_data : String) : Option (List Nat) :=
  match b64decode audio_data with
  | none => none
  | some mulaw_data =>
    let pcm_8khz := ulaw2lin mulaw_data
    match ratecv pcm_8khz 2 1 8000 16000 none with
    | none => none
    | some res => some res.1

/-- `pcm_to_dialer(pcm_data)`: PCM-16 16 kHz in, base64 mu-law 8 kHz out. -/
def pcm_to_dialer (pcm_data : List Nat) : Option String :=
  match ratecv pcm_data 2 1 16000 8000 none with
  | none => none
  | some res =>
    match lin2ulaw res.1 with
    | none => none
    | some mulaw_data => some (b64encode mulaw_data)

end TwilioAudioConverter

/-! ## Twilio message builder
(`services/dialers/twilio/message_builder.py`) -/

/-- `str(value)` for the scalar values this program ever formats into a
`<Parameter>` element (the bool branch is taken before formatting, so
`pyBool` never reaches Python's `str` here). -/
def pyValFormat : PyVal → String
  | .pyStr s => s
  | .pyInt n => toString n
  | .pyBool b => if b then "True" else "False"
  | .pyNone => "None"
  | .pyBytes _ => ""
  | .pyList _ => ""
  | .pyDict _ => ""

namespace TwilioMessageBuilder

/-- `build_audio_message(stream_id, audio_payload)`: the dict
`{"event": "media", "streamSid": stream_id, "media": {"payload": ...}}`. -/
def build_audio_message (stream_id : Option String) (audio_payload : String) : PyVal :=
  .pyDict [
    ("event", .pyStr "media"),
    ("streamSid", match stream_id with | some s => .pyStr s | none => .pyNone),
    ("media", .pyDict [("payload", .pyStr audio_payload)])]

/-- The `<Parameter .../>` accumulation loop of `build_connection_response`,
with booleans stringified to `"true"`/`"false"` first. -/
def parametersXml : List (String × PyVal) → String
  | [] => ""
  | (key, value) :: rest =>
    let v := match value with
      | .pyBool b => if b then "true" else "false"
      | other => pyValFormat other
    "<Parameter name=\"" ++ key ++ "\" value=\"" ++ v ++ "\" />\n            "
      ++ parametersXml rest

/-- `build_connection_response(websocket_url, custom_params)`: the TwiML
document; `custom_params` falsy (None or empty) yields no parameters. -/
def build_connection_response (websocket_url : String)
    (custom_params : Option (List (String × PyVal))) : String :=
  let raw := match custom_params with
    | some ps => if ps.isEmpty then "" else parametersXml ps
    | none => ""
  let parameters_xml := if raw = "" then "" else "\n            " ++ raw.trimRight
  "<?xml version=\"1.0\" encoding=\"UTF-8\"?>\n" ++
  "<Response>\n" ++
  "    <Connect>\n" ++
  "        <Stream url=\"" ++ websocket_url ++ "\">" ++ parameters_xml ++ "\n" ++
  "        </Stream>\n" ++
  "    </Connect>\n" ++
  "</Response>"

end TwilioMessageBuilder

/-! ## Settings and the inbound-call handler (`app/routers/dialer.py`) -/

/-- The configuration fields the router reads (`app/config.py`). -/
structure Settings where
  host : String
  port : Nat
  environment : String
  default_agent : String
deriving Repr, DecidableEq

/-- `build_websocket_url(dialer_name)`. -/
def build_websocket_url (s : Settings) (dialer_name : String) : String :=
  let protocol := "wss"
  let host := if s.host = "0.0.0.0" then "localhost" else s.host
  if s.environment = "production" ∧ (s.port = 80 ∨ s.port = 443) then
    protocol ++ "://" ++ host ++ "/" ++ dialer_name ++ "/media-stream"
  else
    protocol ++ "://" ++ host ++ ":" ++ toString s.port ++ "/" ++ dialer_name ++ "/media-stream"

/-- The default agent id hard-coded in the router. -/
def default_demo_agent_id : String := "agent_7201keyx3brmfk68gdwytc6a4tna"

/-- The hard-coded demo context of `handle_incoming_call` (lines 151-161). -/
def incoming_call_context (agent_id : String) : CallContext :=
  { agent_id := agent_id
    dynamic_variables := [
      ("name", .pyStr "Test Customer"),
      ("due_date", .pyStr "30th January 2026"),
      ("total_enr_amount", .pyStr "25000"),
      ("emi_eligibility", .pyBool true),
      ("waiver_eligible", .pyBool false),
      ("emi_eligible", .pyBool true)] }

/-- `POST /{dialer_name}/incoming-call` (`handle_incoming_call`), for the
registered Twilio dialer: applies the agent-id default, builds the demo
context (which the handler then never uses: no `store_call_context` call
occurs), and returns the TwiML connection response together with the
unchanged context store. -/
def handle_incoming_call (s : Settings) (store : CtxStore) (dialer_name : String)
    (agent_id : Option String) : String × CtxStore :=
  let aid := match agent_id with
    | some a => if a = "" then default_demo_agent_id else a
    | none => default_demo_agent_id
  let _context := incoming_call_context aid
  let websocket_url := build_websocket_url s dialer_name
  let response_content := TwilioMessageBuilder.build_connection_response websocket_url none
  (response_content, store)

/-! ## Python truthiness, where the router relies on it -/

/-- Truthiness of an optional string (`if call_id:` / `if audio_payload:`):
present and non-empty. -/
def optStrTruthy : Option String → Bool
  | some s => !s.isEmpty
  | none => false

/-- Python truthiness of a `PyVal`. -/
def pyTruthy : PyVal → Bool
  | .pyNone => false
  | .pyBool b => b
  | .pyInt n => n != 0
  | .pyStr s => !s.isEmpty
  | .pyBytes bs => !bs.isEmpty
  | .pyList xs => !xs.isEmpty
  | .pyDict fields => !fields.isEmpty

/-! ## Standardized agent events (`app/services/agents/types.py`)

`AgentEventTypes` are the literal strings `"audio"`, `"text"`,
`"transcription"`, `"interruption"`, `"error"`, `"pong"`, `"metadata"`;
they are used inline below. The `error` field of the dataclass holds the
attached exception's message when one is set. -/

/-- The `AgentEvent` dataclass. -/
structure AgentEvent where
  type : String
  data : PyVal
  metadata : List (String × PyVal) := []
  error : Option PyVal := none
deriving Repr

/-! ## ElevenLabs message handler
(`services/agents/elevenlabs/message_handler.py`)

`parse_message` is modelled after `json.loads`: it receives the decoded
frame as a `PyVal`. The pre-decode guards (non-string transport message,
`json.JSONDecodeError`) concern the external decoding step and are not
modelled; a decoded frame that is not a dict makes every `data.get` raise,
which the handler's blanket `except` turns into an error event. -/

namespace ElevenLabsMessageHandler

/-- The error event built by the blanket `except Exception` handler. -/
def exceptionEvent : AgentEvent :=
  { type := "error", data := .pyStr "error parsing message",
    error := some (.pyStr "error parsing message") }

/-- `parse_message` on a decoded frame. -/
def parse_message (data : PyVal) : AgentEvent :=
  match data with
  | .pyDict _ =>
    let msg_type_raw := data.dictGetD "type" .pyNone
    let msg_type : Option String :=
      match msg_type_raw with | .pyStr t => some t | _ => none
    if msg_type = some "audio" then
      let audio_event := data.dictGetD "audio_event" (.pyDict [])
      let audio_base64 := audio_event.dictGetD "audio_base_64" .pyNone
      if pyTruthy audio_base64 then
        match audio_base64 with
        | .pyStr s =>
          match b64decode s with
          | some audio_bytes => { type := "audio", data := .pyBytes audio_bytes }
          | none => exceptionEvent
        | _ => exceptionEvent
      else
        -- falsy payload: falls through to the default metadata return
        { type := "metadata", data := data, metadata := [("original_type", msg_type_raw)] }
    else if msg_type = some "agent_response_event" then
      let response := (data.dictGetD "agent_response_event" (.pyDict [])).dictGetD "response" (.pyStr "")
      { type := "text", data := response }
    else if msg_type = some "user_transcription_event" then
      let transcription :=
        (data.dictGetD "user_transcription_event" (.pyDict [])).dictGetD "user_transcription" (.pyStr "")
      { type := "transcription", data := transcription, metadata := [("source", .pyStr "user")] }
    else if msg_type = some "interruption_event" then
      { type := "interruption", data := .pyBool true }
    else if msg_type = some "ping" then
      { type := "pong", data := data.dictGetD "event_id" .pyNone,
        metadata := [("ping_event", data)] }
    else if msg_type = some "error" then
      let message := data.dictGetD "message" (.pyStr "Unknown error")
      { type := "error", data := message, error := some (data.dictGetD "message" .pyNone) }
    else
      { type := "metadata", data := data, metadata := [("original_type", msg_type_raw)] }
  | _ => exceptionEvent

end ElevenLabsMessageHandler

/-! ## ElevenLabs agent stream (`services/agents/elevenlabs/stream.py`) -/

namespace ElevenLabsAgentStream

/-- `self.auto_ping_pong`, set `True` in `__init__` and never changed. -/
def auto_ping_pong : Bool := true

/-- `receive()` over the sequence of frames the WebSocket delivers (each
already decoded): first component the frames sent back on the same
transport (the pong replies, before `json.dumps`), second component the
events yielded to the consumer. -/
def receive : List PyVal → List PyVal × List AgentEvent
  | [] => ([], [])
  | message :: rest =>
    let event := ElevenLabsMessageHandler.parse_message message
    let r := receive rest
    if auto_ping_pong = true ∧ event.type = "pong" then
      let pong_response : PyVal := .pyDict [("type", .pyStr "pong"), ("event_id", event.data)]
      (pong_response :: r.1, r.2)
    else
      (r.1, event :: r.2)

end ElevenLabsAgentStream

/-! ## The bridge (`app/routers/dialer.py`, `media_stream` and
`receive_from_agent`)

The WebSocket loop is modelled as a pure function from the finite list of
messages the dialer delivers (end of list = socket disconnect) to the
trace of externally visible actions it performs, together with the final
bridge state; `bridgeRun` then appends the actions of the `finally:`
block, exactly as every exit of the Python loop (break, return, exception,
disconnect) runs it. The agent registry lookup, `agent_service.connect`
and `agent_stream.initialize` are external effects whose success is an
environment parameter. -/

/-- Externally visible actions of the bridge, in program order. -/
inductive BridgeAction where
  | connectAgent (agent_id : String) (dynamic_variables : List (String × PyVal))
  | initializeAgent
  | sendAudio (pcm : List Nat)
  | closeAgent
  | cleanupContext (call_id : String)
  | closeDialer
deriving Repr

/-- Is the action an attempted agent connection? -/
def isConnectAgent : BridgeAction → Bool
  | .connectAgent _ _ => true
  | _ => false

/-- Is the action one of the two cleanup-only actions (agent close /
context deletion)? -/
def isCleanupOnlyAct : BridgeAction → Bool
  | .closeAgent => true
  | .cleanupContext _ => true
  | _ => false

/-- Is the action a `send_audio` on the agent stream? -/
def isSendAudio : BridgeAction → Bool
  | .sendAudio _ => true
  | _ => false

/-- Is the action a context deletion? -/
def isCleanupContext : BridgeAction → Bool
  | .cleanupContext _ => true
  | _ => false

/-- Is the action a dialer-socket close? -/
def isCloseDialer : BridgeAction → Bool
  | .closeDialer => true
  | _ => false

/-- The byte lengths of the `send_audio` payloads in a trace. -/
def sendAudioLens : List BridgeAction → List Nat
  | [] => []
  | .sendAudio pcm :: rest => pcm.length :: sendAudioLens rest
  | _ :: rest => sendAudioLens rest

/-- Success of the external agent handshake: the registry lookup plus
`connect`, and then `initialize`. -/
structure AgentEnv where
  connectOk : Bool
  initOk : Bool
deriving Repr, DecidableEq

/-- The local state of one `media_stream` invocation. -/
structure BridgeState where
  store : CtxStore
  call_id : Option String := none
  stream_id : Option String := none
  agentConnected : Bool := false

/-- Lines 246-261: dynamic variables built from the start event's custom
parameters, `"true"`/`"false"` coerced to booleans, `agent_id` excluded. -/
def buildDynamicVariables : List (String × String) → List (String × PyVal)
  | [] => []
  | (key, value) :: rest =>
    if key = "agent_id" then buildDynamicVariables rest
    else
      let v : PyVal :=
        if value = "true" then .pyBool true
        else if value = "false" then .pyBool false
        else .pyStr value
      (key, v) :: buildDynamicVariables rest

/-- Context resolution at `start` (lines 234-261): the stored context, or
else — when custom parameters are present — the fallback context built
from them with the hard-coded default agent id. -/
def startContext (st : BridgeState) (parsed : ParsedMessage) : Option CallContext :=
  let stored := match parsed.call_id with
    | some cid => get_call_context st.store cid
    | none => none
  match stored with
  | some context => some context
  | none =>
    let custom_params := parsed.custom_parameters
    if custom_params.isEmpty then none
    else
      let agent_id := (dictLookup custom_params "agent_id").getD default_demo_agent_id
      some { agent_id := agent_id, dynamic_variables := buildDynamicVariables custom_params }

/-- The body of the `while True:` receive loop of `media_stream`. Early
returns (missing context, failed handshake), `break` on `stop`, a raised
exception mid-conversion, and end of input all stop the recursion; the
caller appends the `finally:` actions. -/
def bridgeMain (env : AgentEnv) : List TwilioWireMessage → BridgeState →
    List BridgeAction × BridgeState
  | [], st => ([], st)
  | message :: rest, st =>
    let parsed := TwilioConnectionHandler.handle_incoming_message message
    if parsed.event_type = "start" then
      let st1 := { st with call_id := parsed.call_id, stream_id := parsed.stream_id }
      match startContext st1 parsed with
      | none => ([.closeDialer], st1)
      | some context =>
        if env.connectOk then
          let st2 := { st1 with agentConnected := true }
          if env.initOk then
            let r := bridgeMain env rest st2
            (BridgeAction.connectAgent context.agent_id context.dynamic_variables
              :: BridgeAction.initializeAgent :: r.1, r.2)
          else
            ([BridgeAction.connectAgent context.agent_id context.dynamic_variables,
              .initializeAgent, .closeDialer], st2)
        else
          ([BridgeAction.connectAgent context.agent_id context.dynamic_variables,
            .closeDialer], st1)
    else if parsed.event_type = "media" then
      match parsed.audio_payload with
      | some payload =>
        if payload.isEmpty then bridgeMain env rest st
        else if st.agentConnected then
          match TwilioAudioConverter.dialer_to_pcm payload with
          | some pcm_audio =>
            let r := bridgeMain env rest st
            (BridgeAction.sendAudio pcm_audio :: r.1, r.2)
          | none => ([], st)
        else bridgeMain env rest st
      | none => bridgeMain env rest st
    else if parsed.event_type = "stop" then ([], st)
    else bridgeMain env rest st

/-- The `finally:` block (lines 341-357): close the agent stream if one
was opened, delete the call context if a call id was seen, close the
dialer socket. -/
def bridgeFinally (st : BridgeState) : List BridgeAction × CtxStore :=
  let agentPart := if st.agentConnected then [BridgeAction.closeAgent] else []
  match st.call_id with
  | some cid =>
    if cid.isEmpty then (agentPart ++ [.closeDialer], st.store)
    else (agentPart ++ [.cleanupContext cid, .closeDialer], cleanup_call_context st.store cid)
  | none => (agentPart ++ [.closeDialer], st.store)

/-- One complete `media_stream` invocation: the `try:` body's trace with
the `finally:` trace appended, and the resulting context store. -/
def bridgeRun (env : AgentEnv) (store : CtxStore) (messages : List TwilioWireMessage) :
    List BridgeAction × CtxStore :=
  let r := bridgeMain env messages { store := store }
  let fin := bridgeFinally r.2
  (r.1 ++ fin.1, fin.2)

/-- `receive_from_agent`: the downstream pump over the events the agent
stream yields, returning the dialer messages it sends (before
`json.dumps`). A conversion failure raises inside the task; its blanket
`except` logs and ends the pump. Text, transcription, interruption and
error events are logged only; pong and metadata events are ignored. -/
def receive_from_agent (stream_id : Option String) : List AgentEvent → List PyVal
  | [] => []
  | event :: rest =>
    if event.type = "audio" then
      match event.data with
      | .pyBytes pcm_bytes =>
        match TwilioAudioConverter.pcm_to_dialer pcm_bytes with
        | some dialer_audio =>
          TwilioMessageBuilder.build_audio_message stream_id dialer_audio
            :: receive_from_agent stream_id rest
        | none => []
      | _ => []
    else
      receive_from_agent stream_id rest

/-! ## Concrete fixtures used by the claim checks -/

/-- 160 mu-law bytes (one 20 ms Twilio frame of `0x7F`, i.e. digital
silence), as in the spec's end-to-end scenario 1. -/
def mulaw160 : List Nat := List.replicate 160 0x7F

/-- The base64 payload of that frame. -/
def payload160 : String := b64encode mulaw160

/-- A stored call context for call `CA1`. -/
def ctxCA1 : CallContext :=
  { agent_id := "AG1", dynamic_variables := [("name", .pyStr "Ada")] }

/-- A store holding `ctxCA1` under `CA1`. -/
def storeCA1 : CtxStore := store_call_context emptyStore "CA1" ctxCA1

/-- A `start` frame for `CA1`/`MZ1` with empty custom parameters. -/
def startCA1 : TwilioWireMessage :=
  { event := some "start",
    start := some { callSid := some "CA1", streamSid := some "MZ1" } }

/-- A `start` frame whose custom parameters are non-empty but contain no
`agent_id` key. -/
def startFooBar : TwilioWireMessage :=
  { event := some "start",
    start := some { callSid := some "CA1", streamSid := some "MZ1",
                    customParameters := [("foo", "bar")] } }

/-- A `media` frame carrying `payload160`. -/
def media160 : TwilioWireMessage :=
  { event := some "media", streamSid := some "MZ1",
    media := some { payload := some payload160 } }

/-- A `stop` frame. -/
def stopCA1 : TwilioWireMessage :=
  { event := some "stop", stop := some { callSid := some "CA1" },
    streamSid := some "MZ1" }

/-- An environment in which the agent handshake succeeds. -/
def envOk : AgentEnv := ⟨true, true⟩

/-- The property asserted by the spec's cleanup-ordering sentence, as a
per-trace check: every context deletion is preceded by both an agent-stream
close and a dialer-socket close. -/
def contextDeletedAfterBothClosed (trace : List BridgeAction) : Bool :=
  go false false trace
where
  go (agentClosed dialerClosed : Bool) : List BridgeAction → Bool
    | [] => true
    | .closeAgent :: rest => go true dialerClosed rest
    | .closeDialer :: rest => go agentClosed true rest
    | .cleanupContext _ :: rest => (agentClosed && dialerClosed) && go agentClosed dialerClosed rest
    | _ :: rest => go agentClosed dialerClosed rest

/-- An `error` event as the agent stream yields it. -/
def errorEventBoom : AgentEvent :=
  { type := "error", data := .pyStr "boom", error := some (.pyStr "boom") }

/-- An `audio` event carrying two PCM samples of silence. -/
def audioEventZeros : AgentEvent :=
  { type := "audio", data := .pyBytes [0, 0, 0, 0] }

/-- A provider `ping` frame with event id `v`, as decoded from the wire. -/
def pingFrame (v : PyVal) : PyVal :=
  .pyDict [("type", .pyStr "ping"), ("event_id", v)]

/-- The pong reply the stream sends for event id `v`. -/
def pongFrame (v : PyVal) : PyVal :=
  .pyDict [("type", .pyStr "pong"), ("event_id", v)]

/-- A frame of type `ping_event`, the shape the spec describes. -/
def ping_event_frame : PyVal :=
  .pyDict [("type", .pyStr "ping_event"), ("event_id", .pyInt 1)]

set_option maxRecDepth 200000

/-! ## Claim C1 -/

/-- C1: the inbound-call handler is claimed to store the `CallContext` it
built under the dialer-supplied call identifier. The code builds the
context and never calls `store_call_context` (it does not even receive the
call id), so the store is returned unchanged: afterwards
`get_call_context` yields for every call id exactly what it yielded
before — for a fresh call id, nothing. -/
theorem handle_incoming_call_leaves_store_unchanged
    (s : Settings) (store : CtxStore) (dialer_name : String)
    (agent_id : Option String) (call_id : String) :
    get_call_context (handle_incoming_call s store dialer_name agent_id).2 call_id
      = get_call_context store call_id := rfl

/-! ## Claim C6 -/

/-- C6 counterexample: the downstream pump is claimed to stop pumping when
it consumes an `error` event. Feeding it an `error` event followed by an
`audio` event, the audio is still converted and forwarded to the dialer:
the pump emits one dialer frame after the error instead of zero. -/
theorem receive_from_agent_forwards_after_error :
    (receive_from_agent (some "MZ1") [errorEventBoom, audioEventZeros]).length = 1 := by
  decide

/-- C6 (amended): when the downstream pump consumes an `error` event from
`agent_stream.receive()`, it only logs it and continues with the remaining
events unchanged; it does not stop pumping or run cleanup. -/
theorem receive_from_agent_error_skipped
    (stream_id : Option String) (event : AgentEvent) (rest : List AgentEvent)
    (h : event.type = "error") :
    receive_from_agent stream_id (event :: rest) = receive_from_agent stream_id rest := by
  simp [receive_from_agent, h]

/-- Witness for C6 (amended) at the concrete error event. -/
theorem receive_from_agent_error_skipped_witness :
    errorEventBoom.type = "error" ∧
      receive_from_agent (some "MZ1") [errorEventBoom, audioEventZeros]
        = receive_from_agent (some "MZ1") [audioEventZeros] :=
  ⟨rfl, receive_from_agent_error_skipped (some "MZ1") errorEventBoom [audioEventZeros] rfl⟩

/-! ## Claim C7 -/

/-- C7: in the custom-parameter fallback built at `start`, every
non-`agent_id` key maps literal `"true"` to boolean `True`, literal
`"false"` to boolean `False`, and any other value through unchanged as a
string. -/
theorem buildDynamicVariables_boolean_coercion
    (params : List (String × String)) (k v : String)
    (hmem : (k, v) ∈ params) (hk : k ≠ "agent_id") :
    (v = "true" → (k, PyVal.pyBool true) ∈ buildDynamicVariables params) ∧
    (v = "false" → (k, PyVal.pyBool false) ∈ buildDynamicVariables params) ∧
    (v ≠ "true" → v ≠ "false" → (k, PyVal.pyStr v) ∈ buildDynamicVariables params) := by
  induction params with
  | nil => cases hmem
  | cons hd tl ih =>
    rcases List.mem_cons.mp hmem with heq | hmem2
    · obtain ⟨hk1, hv1⟩ : hd.1 = k ∧ hd.2 = v := by
        cases hd; cases heq; exact ⟨rfl, rfl⟩
      refine ⟨fun hv => ?_, fun hv => ?_, fun hv hv2 => ?_⟩
      · simp [buildDynamicVariables, hk1, hv1, hk, hv]
      · simp [buildDynamicVariables, hk1, hv1, hk, hv]
      · simp [buildDynamicVariables, hk1, hv1, hk, hv, hv2]
    · have ih2 := ih hmem2
      by_cases hhd : hd.1 = "agent_id"
      · cases hd
        refine ⟨fun hv => ?_, fun hv => ?_, fun hv hv2 => ?_⟩ <;>
          simp_all [buildDynamicVariables]
      · cases hd
        refine ⟨fun hv => ?_, fun hv => ?_, fun hv hv2 => ?_⟩ <;>
          simp_all [buildDynamicVariables]

/-- Witness for C7 at a concrete parameter mapping. -/
theorem buildDynamicVariables_boolean_coercion_witness :
    ("eligible", "true") ∈ ([("eligible", "true"), ("waiver", "false"), ("name", "Ada")] :
      List (String × String)) ∧
    "eligible" ≠ "agent_id" ∧
    ("eligible", PyVal.pyBool true) ∈
      buildDynamicVariables [("eligible", "true"), ("waiver", "false"), ("name", "Ada")] :=
  ⟨by decide, by decide,
    (buildDynamicVariables_boolean_coercion
      [("eligible", "true"), ("waiver", "false"), ("name", "Ada")]
      "eligible" "true" (by decide) (by decide)).1 rfl⟩

/-! ## Claim C8 -/

/-- C8 counterexample: a frame of type `ping_event` — the shape the spec
names — is not treated as a ping by the stream: no reply frame is sent on
the transport, and the frame does surface to the bridge (as one metadata
event), contradicting both halves of the claim. -/
theorem elevenlabs_ping_event_frame_not_answered :
    (ElevenLabsAgentStream.receive [ping_event_frame]).1 = [] ∧
    (ElevenLabsAgentStream.receive [ping_event_frame]).2.length = 1 :=
  ⟨rfl, rfl⟩

/-- C8 (amended): the provider ping frame is `{"type":"ping", "event_id": E}`;
the stream answers it on the same transport with `{"type":"pong",
"event_id": E}` (not `ping_event`/`pong_event`), and `receive()` yields no
event to the bridge for that frame. -/
theorem elevenlabs_ping_answered_with_pong (v : PyVal) (rest : List PyVal) :
    ElevenLabsAgentStream.receive (pingFrame v :: rest)
      = (pongFrame v :: (ElevenLabsAgentStream.receive rest).1,
         (ElevenLabsAgentStream.receive rest).2) := by
  simp [ElevenLabsAgentStream.receive, ElevenLabsMessageHandler.parse_message,
    pingFrame, pongFrame, PyVal.dictGetD, PyVal.dictGet, PyVal.dictGet.go,
    ElevenLabsAgentStream.auto_ping_pong]

/-! ## Claim C9 -/

/-- C9: for every registered name, every case variant of it resolves to
the same factory in both registries, and an unregistered name errors with
a message listing the registered names. -/
theorem registry_get_case_insensitive {α : Type} (reg : List (String × α))
    (s t u : String) (f : α)
    (hlower : lowerName s = lowerName t)
    (hreg : dictLookup reg (lowerName s) = some f)
    (hunreg : dictLookup reg (lowerName u) = none) :
    (DialerRegistry.get reg s = .ok f ∧ DialerRegistry.get reg t = .ok f ∧
     AgentRegistry.get reg s = .ok f ∧ AgentRegistry.get reg t = .ok f) ∧
    DialerRegistry.get reg u = .error ("Dialer '" ++ u ++ "' not registered. Available dialers: "
      ++ String.intercalate ", " (DialerRegistry.list_dialers reg)) ∧
    AgentRegistry.get reg u = .error ("Agent '" ++ u ++ "' not registered. Available agents: "
      ++ String.intercalate ", " (AgentRegistry.list_agents reg)) := by
  have ht : lowerName t = lowerName s := hlower.symm
  refine ⟨⟨?_, ?_, ?_, ?_⟩, ?_, ?_⟩ <;>
    simp [DialerRegistry.get, AgentRegistry.get, ht, hreg, hunreg]

/-- Witness for C9: `get("Twilio")` and `get("twilio")` agree on a registry
holding the Twilio dialer, and `get("plivo")` errors. -/
theorem registry_get_case_insensitive_witness :
    (lowerName "Twilio" = lowerName "twilio" ∧
     dictLookup [("twilio", "TwilioDialerService")] (lowerName "Twilio")
       = some "TwilioDialerService" ∧
     dictLookup [("twilio", "TwilioDialerService")] (lowerName "plivo") = none) ∧
    DialerRegistry.get [("twilio", "TwilioDialerService")] "Twilio" = .ok "TwilioDialerService" ∧
    DialerRegistry.get [("twilio", "TwilioDialerService")] "twilio" = .ok "TwilioDialerService" :=
  ⟨⟨by decide, by decide, by decide⟩,
   ((registry_get_case_insensitive [("twilio", "TwilioDialerService")] "Twilio" "twilio" "plivo"
      "TwilioDialerService" (by decide) (by decide) (by decide)).1).1,
   ((registry_get_case_insensitive [("twilio", "TwilioDialerService")] "Twilio" "twilio" "plivo"
      "TwilioDialerService" (by decide) (by decide) (by decide)).1).2.1⟩

/-! ## Claim C10 -/

/-- C10: a `media` frame whose payload is absent or empty, or that arrives
while no agent stream is established, is silently dropped: no `send_audio`
occurs, nothing is raised, and the loop continues on the remaining
messages in the same state. -/
theorem media_frame_dropped_silently (env : AgentEnv) (msg : TwilioWireMessage)
    (rest : List TwilioWireMessage) (st : BridgeState)
    (hev : msg.event = some "media")
    (hdrop : optStrTruthy (msg.media.getD {}).payload = false ∨ st.agentConnected = false) :
    bridgeMain env (msg :: rest) st = bridgeMain env rest st := by
  have hparsed : TwilioConnectionHandler.handle_incoming_message msg
      = TwilioConnectionHandler.handle_media msg := by
    simp [TwilioConnectionHandler.handle_incoming_message, hev]
  cases hp : (msg.media.getD {}).payload with
  | none =>
    simp [bridgeMain, hparsed, TwilioConnectionHandler.handle_media, hp]
  | some p =>
    rcases hdrop with h | h
    · rw [hp] at h
      have hpe : p.isEmpty = true := by
        simpa [optStrTruthy] using h
      simp [bridgeMain, hparsed, TwilioConnectionHandler.handle_media, hp, hpe]
    · by_cases hpe : p.isEmpty
      · simp [bridgeMain, hparsed, TwilioConnectionHandler.handle_media, hp, hpe]
      · simp [bridgeMain, hparsed, TwilioConnectionHandler.handle_media, hp, hpe, h]

/-- Witness for C10: a payload-less media frame before any agent stream
exists is dropped and the loop continues. -/
theorem media_frame_dropped_silently_witness :
    (({ event := some "media", media := some {} } : TwilioWireMessage).event = some "media" ∧
     ({ store := emptyStore } : BridgeState).agentConnected = false) ∧
    bridgeMain envOk [{ event := some "media", media := some {} }] { store := emptyStore }
      = bridgeMain envOk [] { store := emptyStore } :=
  ⟨⟨rfl, rfl⟩,
   media_frame_dropped_silently envOk { event := some "media", media := some {} } []
     { store := emptyStore } rfl (Or.inr rfl)⟩

/-! ## Claim C2 -/

/-- C2 counterexample: a `start` whose call id has no stored context and
whose custom parameters are non-empty but contain no `agent_id` key does
not make the bridge close and stop — the code substitutes the hard-coded
default agent id and attempts the agent connection. -/
theorem start_without_agent_id_still_connects :
    get_call_context emptyStore "CA1" = none ∧
    dictLookup [("foo", "bar")] "agent_id" = none ∧
    (bridgeRun envOk emptyStore [startFooBar]).1.any isConnectAgent = true := by
  exact ⟨rfl, rfl, by decide⟩

/-- C2 (amended): for a `start` whose call id has no stored context and
whose custom-parameter mapping is empty, the bridge closes the dialer
socket and terminates without ever attempting an agent connection (when
the mapping is non-empty but lacks `agent_id`, a hard-coded default agent
id is used instead and a connection is attempted). -/
theorem start_no_context_empty_params_closes (env : AgentEnv) (store : CtxStore)
    (cid : String) (sid : Option String) (rest : List TwilioWireMessage)
    (h1 : get_call_context store cid = none)
    (h2 : cid.isEmpty = false) :
    bridgeRun env store
      ({ event := some "start",
         start := some { callSid := some cid, streamSid := sid,
                         customParameters := [] } } :: rest)
      = ([.closeDialer, .cleanupContext cid, .closeDialer], cleanup_call_context store cid) ∧
    ([BridgeAction.closeDialer, .cleanupContext cid, .closeDialer].any isConnectAgent) = false := by
  have h1' : store cid = none := h1
  constructor
  · simp [bridgeRun, bridgeMain, TwilioConnectionHandler.handle_incoming_message,
      TwilioConnectionHandler.handle_start, startContext, get_call_context, h1',
      bridgeFinally, h2]
  · rfl

/-- Witness for C2 (amended) at a concrete unknown call id. -/
theorem start_no_context_empty_params_closes_witness :
    (get_call_context emptyStore "CA9" = none ∧ "CA9".isEmpty = false) ∧
    (bridgeRun envOk emptyStore
      [{ event := some "start",
         start := some { callSid := some "CA9", streamSid := some "MZ1",
                         customParameters := [] } }]
      = ([.closeDialer, .cleanupContext "CA9", .closeDialer],
         cleanup_call_context emptyStore "CA9") ∧
    ([BridgeAction.closeDialer, .cleanupContext "CA9", .closeDialer].any isConnectAgent) = false) :=
  ⟨⟨rfl, by decide⟩,
   start_no_context_empty_params_closes envOk emptyStore "CA9" (some "MZ1") [] rfl (by decide)⟩

/-! ## Claim C3 -/

/-- C3 counterexample: on the ordinary stop path the trace of the run is
`[connect, initialize, closeAgent, cleanupContext, closeDialer]` — the
context is deleted while the dialer socket is still open, so the claimed
"delete only after both endpoints are closed" fails. -/
theorem cleanup_deletes_context_before_dialer_close :
    contextDeletedAfterBothClosed (bridgeRun envOk storeCA1 [startCA1, stopCA1]).1 = false := by
  decide

/-- Helper: the receive-loop body itself never closes the agent stream and
never deletes a context; those actions happen only in the `finally:`
block. -/
theorem bridgeMain_no_cleanup_actions (env : AgentEnv) :
    ∀ (msgs : List TwilioWireMessage) (st : BridgeState),
      ∀ a ∈ (bridgeMain env msgs st).1, isCleanupOnlyAct a = false := by
  intro msgs
  induction msgs with
  | nil => intro st a ha; cases ha
  | cons m rest ih =>
    intro st
    simp only [bridgeMain]
    split
    · split
      · intro a ha
        rcases List.mem_cons.mp ha with rfl | ha
        · rfl
        · cases ha
      · split
        · split
          · intro a ha
            rcases List.mem_cons.mp ha with rfl | ha
            · rfl
            rcases List.mem_cons.mp ha with rfl | ha
            · rfl
            exact ih _ a ha
          · intro a ha
            rcases List.mem_cons.mp ha with rfl | ha
            · rfl
            rcases List.mem_cons.mp ha with rfl | ha
            · rfl
            rcases List.mem_cons.mp ha with rfl | ha
            · rfl
            cases ha
        · intro a ha
          rcases List.mem_cons.mp ha with rfl | ha
          · rfl
          rcases List.mem_cons.mp ha with rfl | ha
          · rfl
          cases ha
    · split
      · split
        · split
          · exact ih st
          · split
            · split
              · intro a ha
                rcases List.mem_cons.mp ha with rfl | ha
                · rfl
                exact ih st a ha
              · intro a ha; cases ha
            · exact ih st
        · exact ih st
      · split
        · intro a ha; cases ha
        · exact ih st

/-- C3 (amended): on every termination path the cleanup sequence is:
close the agent stream (when one was opened), then delete the call id's
context (when a call id was seen), then close the dialer socket — and no
agent-close or context-deletion occurs anywhere before that final
sequence. The context is thus deleted after the agent-stream close but
BEFORE the dialer-socket close, not after both endpoints are closed. -/
theorem bridge_cleanup_order (env : AgentEnv) (store : CtxStore)
    (msgs : List TwilioWireMessage) :
    ∃ (pre : List BridgeAction) (agentWasOpen : Bool) (deleted : Option String),
      (bridgeRun env store msgs).1
        = pre ++ (if agentWasOpen then [BridgeAction.closeAgent] else [])
            ++ (match deleted with
                | some cid => [BridgeAction.cleanupContext cid]
                | none => [])
            ++ [BridgeAction.closeDialer]
      ∧ ∀ a ∈ pre, isCleanupOnlyAct a = false := by
  have hall := bridgeMain_no_cleanup_actions env msgs { store := store }
  rcases hmain : bridgeMain env msgs { store := store } with ⟨acts, st2⟩
  rw [hmain] at hall
  refine ⟨acts, st2.agentConnected,
    (match st2.call_id with
      | some cid => if cid.isEmpty then none else some cid
      | none => none), ?_, hall⟩
  unfold bridgeRun
  rw [hmain]
  cases hc : st2.call_id with
  | none => simp [bridgeFinally, hc]
  | some cid =>
    by_cases he : cid.isEmpty <;> simp [bridgeFinally, hc, he]

/-! ## Codec lemmas: base64 round trip, sample round trip, and the
`ratecv` output lengths for the 8 kHz → 16 kHz direction. -/

/-- Decoding an alphabet character produced by `b64Char` recovers its
6-bit value. -/
theorem b64Val_b64Char : ∀ n, n < 64 → b64Val (b64Char n) = some n := by decide

/-- `decode16` inverts `encode16` on 16-bit samples. -/
theorem decode16_encode16 (s : Int) (h1 : -32768 ≤ s) (h2 : s < 32768) :
    decode16 ((s % 65536).toNat % 256) ((s % 65536).toNat / 256) = s := by
  simp only [decode16]
  have hem : s % 65536 = s ∨ s % 65536 = s + 65536 := by omega
  rcases hem with h | h <;> (rw [h]; split <;> omega)

/-- Base64 decoding inverts encoding on byte lists. -/
theorem b64_roundtrip_chars : ∀ bs : List Nat, (∀ b ∈ bs, b < 256) →
    b64decodeChars (b64encodeChars bs) = some bs
  | [], _ => rfl
  | [a], h => by
    have ha : a < 256 := h a (by simp)
    simp only [b64encodeChars, b64decodeChars]
    rw [b64Val_b64Char _ (by omega), b64Val_b64Char _ (by omega)]
    simp
    omega
  | [a, b], h => by
    have ha : a < 256 := h a (by simp)
    have hb : b < 256 := h b (by simp)
    simp only [b64encodeChars, b64decodeChars]
    rw [b64Val_b64Char _ (by omega), b64Val_b64Char _ (by omega),
      b64Val_b64Char _ (by omega)]
    have hne : b64Char (b % 16 * 4) ≠ '=' := by
      intro hc
      have := b64Val_b64Char (b % 16 * 4) (by omega)
      rw [hc] at this
      simp [b64Val] at this
    simp [hne]
    constructor <;> omega
  | a :: b :: c :: rest, h => by
    have ha : a < 256 := h a (by simp)
    have hb : b < 256 := h b (by simp)
    have hc : c < 256 := h c (by simp)
    have hrest : ∀ x ∈ rest, x < 256 := fun x hx => h x (by simp [hx])
    simp only [b64encodeChars, b64decodeChars]
    rw [b64Val_b64Char _ (by omega), b64Val_b64Char _ (by omega),
      b64Val_b64Char _ (by omega), b64Val_b64Char _ (by omega)]
    have hne1 : b64Char (b % 16 * 4 + c / 64) ≠ '=' := by
      intro hq
      have := b64Val_b64Char (b % 16 * 4 + c / 64) (by omega)
      rw [hq] at this
      simp [b64Val] at this
    have hne2 : b64Char (c % 64) ≠ '=' := by
      intro hq
      have := b64Val_b64Char (c % 64) (by omega)
      rw [hq] at this
      simp [b64Val] at this
    simp [hne1, hne2, b64_roundtrip_chars rest hrest]
    refine ⟨by omega, by omega, by omega⟩

/-- `base64.b64decode` inverts `base64.b64encode`. -/
theorem b64decode_b64encode (bs : List Nat) (hb : ∀ b ∈ bs, b < 256) :
    b64decode (b64encode bs) = some bs := by
  show b64decodeChars (String.mk (b64encodeChars bs)).toList = some bs
  rw [show (String.mk (b64encodeChars bs)).toList = b64encodeChars bs from rfl]
  exact b64_roundtrip_chars bs hb

/-- Reading back the bytes of a 16-bit sample list recovers the samples. -/
theorem bytesToSamples_samplesToBytes : ∀ ss : List Int,
    (∀ s ∈ ss, -32768 ≤ s ∧ s < 32768) →
    bytesToSamples (samplesToBytes ss) = some ss
  | [], _ => rfl
  | s :: ss, h => by
    have hs := h s (by simp)
    have hss : ∀ x ∈ ss, -32768 ≤ x ∧ x < 32768 := fun x hx => h x (by simp [hx])
    show bytesToSamples (encode16 s ++ samplesToBytes ss) = _
    simp only [encode16]
    show (bytesToSamples (samplesToBytes ss)).map _ = _
    rw [bytesToSamples_samplesToBytes ss hss]
    simp [decode16_encode16 s hs.1 hs.2]

/-- The mu-law decoder always produces 16-bit samples. -/
theorem st_ulaw2linear16_bounds :
    ∀ u : Nat, -32768 ≤ st_ulaw2linear16 u ∧ st_ulaw2linear16 u < 32768 := by
  intro u
  have h : st_ulaw2linear16 u = st_ulaw2linear16 (u % 256) := by
    simp only [st_ulaw2linear16, Nat.mod_mod_of_dvd u (dvd_refl 256)]
  rw [h]
  have : u % 256 < 256 := Nat.mod_lt _ (by norm_num)
  revert this
  generalize u % 256 = v
  revert v
  decide

/-- Two bytes per sample. -/
theorem samplesToBytes_length : ∀ ss : List Int, (samplesToBytes ss).length = 2 * ss.length
  | [] => rfl
  | s :: ss => by
    show (encode16 s ++ samplesToBytes ss).length = _
    simp [samplesToBytes_length ss, encode16]
    omega

/-- The emit loop from phase `d = 1` at ratio 1:2 emits two samples. -/
theorem ratecvEmit_d1 (prev cur : Int) :
    ratecvEmit prev cur 1 2 2 1
      = ([interpSample prev cur 2 1, interpSample prev cur 2 0], -1) := rfl

/-- The emit loop from phase `d = 0` at ratio 1:2 emits one sample. -/
theorem ratecvEmit_d0 (prev cur : Int) :
    ratecvEmit prev cur 1 2 1 0 = ([interpSample prev cur 2 0], -1) := rfl

/-- At ratio 1:2 from carried phase `d = -1`, every input sample yields
two output samples. -/
theorem ratecvLoop_up_len : ∀ (xs : List Int) (prev cur : Int),
    ((ratecvLoop 1 2 xs (-1) prev cur).1).length = 2 * xs.length
  | [], _, _ => rfl
  | x :: xs, prev, cur => by
    show ((ratecvLoop 1 2 (x :: xs) (-1) prev cur).1).length = _
    have : (-1 : Int) + 2 = 1 := by norm_num
    simp only [ratecvLoop, this]
    norm_num [ratecvEmit_d1, ratecvLoop_up_len xs cur x]
    omega

/-- At ratio 1:2 from the fresh-state phase `d = -2`, the first input
sample yields one output sample and every later one yields two: a fresh
state loses one sample relative to a carried state. -/
theorem ratecvLoop_up_len_first : ∀ (xs : List Int) (x prev cur : Int),
    ((ratecvLoop 1 2 (x :: xs) (-2) prev cur).1).length = 1 + 2 * xs.length := by
  intro xs x prev cur
  have : (-2 : Int) + 2 = 0 := by norm_num
  simp only [ratecvLoop, this]
  norm_num [ratecvEmit_d0, ratecvLoop_up_len xs cur x]
  omega

/-- `dialer_to_pcm` on the base64 encoding of `n > 0` mu-law bytes
produces `4n - 2` PCM bytes (fresh resampler state each call: `2n - 1`
output samples, not `2n`). -/
theorem dialer_to_pcm_length (bs : List Nat) (hne : bs ≠ []) (hb : ∀ b ∈ bs, b < 256) :
    ∃ pcm, TwilioAudioConverter.dialer_to_pcm (b64encode bs) = some pcm ∧
      pcm.length = 4 * bs.length - 2 := by
  have hsamples : bytesToSamples (ulaw2lin bs) = some (bs.map st_ulaw2linear16) := by
    unfold ulaw2lin
    apply bytesToSamples_samplesToBytes
    intro s hs
    simp only [List.mem_map] at hs
    obtain ⟨u, _, rfl⟩ := hs
    exact st_ulaw2linear16_bounds u
  obtain ⟨x, xs, rfl⟩ : ∃ x xs, bs = x :: xs := by
    cases bs with
    | nil => exact absurd rfl hne
    | cons x xs => exact ⟨x, xs, rfl⟩
  have e1 : ((8000 / Nat.gcd 8000 16000 : Nat) : Int) = 1 := by norm_num
  have e2 : ((16000 / Nat.gcd 8000 16000 : Nat) : Int) = 2 := by norm_num
  unfold TwilioAudioConverter.dialer_to_pcm ratecv
  rw [b64decode_b64encode _ hb]
  norm_num [hsamples, e1, e2]
  rw [samplesToBytes_length, List.length_map, ratecvLoop_up_len_first]
  simp
  omega

/-- Encoding a non-empty byte list gives a non-empty (truthy) payload. -/
theorem b64encode_cons_ne_empty (x : Nat) (xs : List Nat) :
    (b64encode (x :: xs)).isEmpty = false := by
  have h : b64encodeChars (x :: xs) ≠ [] := by
    match xs with
    | [] => simp [b64encodeChars]
    | [b] => simp [b64encodeChars]
    | b :: c :: rest => simp [b64encodeChars]
  rw [show b64encode (x :: xs) = String.mk (b64encodeChars (x :: xs)) from rfl]
  rw [Bool.eq_false_iff]
  intro hcontra
  exact h (congrArg String.toList ((String.isEmpty_iff _).mp hcontra))

/-! ## Claim C4 -/

/-- C4: the resampler state is claimed to be carried from each converted
frame into the next. Both converter directions call `audioop.ratecv` with
`None` and discard the returned state, so every frame is converted from a
fresh state. Observable divergence: for a 160-byte mu-law frame the
converter always yields 638 PCM bytes, while converting the same frame
with the state carried from the previous call yields 640 bytes; in the
other direction a one-sample frame yields one output sample from a fresh
state but zero from the state carried after an identical first frame. -/
theorem dialer_to_pcm_resets_resampler_state :
    (TwilioAudioConverter.dialer_to_pcm payload160).map List.length = some 638 ∧
    ((ratecv (ulaw2lin mulaw160) 2 1 8000 16000
        ((ratecv (ulaw2lin mulaw160) 2 1 8000 16000 none).map Prod.snd)).map
      (fun r => r.1.length)) = some 640 ∧
    (ratecv [0, 0] 2 1 16000 8000 none).map (fun r => r.1.length) = some 2 ∧
    ((ratecv [0, 0] 2 1 16000 8000
        ((ratecv [0, 0] 2 1 16000 8000 none).map Prod.snd)).map
      (fun r => r.1.length)) = some 0 :=
  ⟨by decide, by decide, by decide, by decide⟩

/-! ## Claim C5 -/

/-- C5 counterexample: in RUNNING state, one media frame of 160 mu-law
bytes (base64) yields exactly one `send_audio`, but its PCM argument is
638 bytes, not the claimed 320. -/
theorem media_frame_pcm_not_320_bytes :
    sendAudioLens (bridgeRun envOk storeCA1 [startCA1, media160, stopCA1]).1 = [638] ∧
    sendAudioLens (bridgeRun envOk storeCA1 [startCA1, media160, stopCA1]).1 ≠ [320] := by
  constructor <;> decide

/-- C5 (amended): when the bridge in RUNNING state receives one dialer
media frame whose payload is the base64 encoding of 160 mu-law bytes, it
makes exactly one `send_audio` call on the agent stream, and the PCM
argument of that call is 638 bytes long (319 samples: the fresh resampler
state of each conversion loses one interpolated sample; 320 samples = 640
bytes would require the carried state). -/
theorem bridge_media_frame_single_send (bs : List Nat)
    (h1 : bs.length = 160) (hb : ∀ b ∈ bs, b < 256) :
    sendAudioLens (bridgeRun envOk storeCA1
      [startCA1,
       { event := some "media", streamSid := some "MZ1",
         media := some { payload := some (b64encode bs) } },
       stopCA1]).1 = [638] := by
  have hne : bs ≠ [] := by intro h; subst h; simp at h1
  obtain ⟨pcm, hpcm, hlen⟩ := dialer_to_pcm_length bs hne hb
  have hemp : (b64encode bs).isEmpty = false := by
    obtain ⟨x, xs, rfl⟩ : ∃ x xs, bs = x :: xs := by
      cases bs with
      | nil => simp at h1
      | cons x xs => exact ⟨x, xs, rfl⟩
    exact b64encode_cons_ne_empty x xs
  simp [bridgeRun, bridgeMain, startCA1, stopCA1, TwilioConnectionHandler.handle_incoming_message,
    TwilioConnectionHandler.handle_start, TwilioConnectionHandler.handle_media,
    TwilioConnectionHandler.handle_stop, startContext, get_call_context, storeCA1,
    store_call_context, emptyStore, envOk, hemp, hpcm, bridgeFinally, sendAudioLens, hlen, h1]

/-- Witness for C5 (amended) at the concrete frame of 160 `0x7F` bytes. -/
theorem bridge_media_frame_single_send_witness :
    (mulaw160.length = 160 ∧ ∀ b ∈ mulaw160, b < 256) ∧
    sendAudioLens (bridgeRun envOk storeCA1
      [startCA1,
       { event := some "media", streamSid := some "MZ1",
         media := some { payload := some (b64encode mulaw160) } },
       stopCA1]).1 = [638] :=
  ⟨⟨by decide, by decide⟩, bridge_media_frame_single_send mulaw160 (by decide) (by decide)⟩
